import Mathlib

/-!
Verification of the NotifyMe leveled-logging library.

The repository contains several near-identical variants of one design:
a `Logger` holding four severity-specific writers, an integer threshold
`level`, and (in some variants) a mutex.  We embed the variants the
claims cite:

* `NM`  — `logger.go`: `newLoggerInstance`, the numeric dispatcher
  `Log`, package-level `Notify`, `InitFromEnv`, `MarshalJSON` and
  `UnmarshalJSON`.
* `P1`  — the first document of `unnamed/part_001` (same as
  `unnamed/part_000`): `LogWithLevel` and the plain
  `Info`/`Warn`/`Error`/`Critical` methods.
* `P2`  — the second document of `unnamed/part_001`: `logMessage` with
  a context label and printf arguments, the four severity methods,
  `Critical` returning an error value, and the method `Logger.Notify`.
* `P3`  — `unnamed/part_002`: its `Critical` method.

Modelling conventions, applied uniformly:
* Go `int` is `Int`.
* A written log line is a `LogLine` record holding the severity tag
  (the `log.New` prefix / the `[%s]` label), the message body, and the
  context label (empty for the variants that have none).  The wall-clock
  RFC3339 timestamp and the `log.Ldate|log.Ltime|log.Lshortfile` prefix
  are environmental output not modelled.
* `interface{}` arguments are taken pre-rendered as `String`s (Go's
  `%v` rendering of a value is environmental); `fmt.Sprintf` is
  modelled by `sprintf` below.
* Methods return the (unchanged, unless the source assigns to it)
  logger together with the list of lines written to the sink, so that
  frame properties are statements and not typing accidents.
* Mutex acquire/release only serialises the operations; the
  sequential semantics is the body between lock and unlock.
-/

/-- A sink: standard output or an opened append-mode file. -/
inductive Sink where
  | stdout : Sink
  | file (path : String) : Sink
  deriving DecidableEq, Repr

/-- One line written to a sink: severity tag, message body, context label. -/
structure LogLine where
  tag : String
  msg : String
  ctx : String
  deriving DecidableEq, Repr

/-- The `Logger` struct: four severity-specific writers (modelled by the
sink each targets) and the current threshold `level`.  The mutex is not
part of the sequential state. -/
structure Logger where
  infoSink : Sink
  warnSink : Sink
  errorSink : Sink
  criticalSink : Sink
  level : Int
  deriving DecidableEq, Repr

/-- Character-list worker for `sprintf`. -/
def sprintfAux : List Char → List String → String
  | [], args =>
      if args.isEmpty then ""
      else "%!(EXTRA " ++ String.intercalate ", " args ++ ")"
  | '%' :: '%' :: cs, args => "%" ++ sprintfAux cs args
  | '%' :: c :: cs, args =>
      if c = 'v' ∨ c = 's' ∨ c = 'd' then
        match args with
        | [] => "%!" ++ String.singleton c ++ "(MISSING)" ++ sprintfAux cs []
        | a :: rest => a ++ sprintfAux cs rest
      else String.singleton '%' ++ String.singleton c ++ sprintfAux cs args
  | c :: cs, args => String.singleton c ++ sprintfAux cs args

/-- Model of Go `fmt.Sprintf` specialised to this repository's use: each
format verb (`%v`, `%s`, `%d`) consumes the next pre-rendered argument,
`%%` is a literal percent, a verb with no argument left yields Go's
`MISSING` marker, and surplus arguments yield Go's `EXTRA` marker.
`fmt.Errorf(f, a...)` constructs a non-nil error whose message is
`sprintf f a`. -/
def sprintf (format : String) (args : List String) : String :=
  sprintfAux format.toList args

namespace NM

/-- `logger.go` `newLoggerInstance`: open failure environment is the
`openOK` oracle; on failure the source calls `log.Fatalf`, terminating
the host process, which we record as the `fatal` outcome. -/
inductive InitResult where
  | ok (l : Logger) : InitResult
  | fatal (msg : String) : InitResult
  deriving DecidableEq, Repr

/-- `logger.go` lines 34–55, `newLoggerInstance(level, output...)`. -/
def newLoggerInstance (openOK : String → Bool) (level : Int)
    (output : List String) : InitResult :=
  match output with
  | [] => .ok ⟨.stdout, .stdout, .stdout, .stdout, level⟩
  | path :: _ =>
      if openOK path then .ok ⟨.file path, .file path, .file path, .file path, level⟩
      else .fatal "Failed to open log file"

/-- `logger.go` lines 84–111, `(l *Logger) Log(level, message, optionalParams...)`.
`fullMessage` appends `" %v"` of each optional parameter; the switch on
the numeric level gates each write by `l.level <= Level`; the default
branch writes `Unknown log level: <n>` to the error writer with no
threshold check.  The logger itself is never assigned to. -/
def Log (l : Logger) (level : Int) (message : String)
    (optionalParams : List String) : Logger × List LogLine :=
  let fullMessage := optionalParams.foldl (fun acc p => acc ++ " " ++ p) message
  let lines : List LogLine :=
    if level = 0 then (if l.level ≤ 0 then [⟨"INFO", fullMessage, ""⟩] else [])
    else if level = 1 then (if l.level ≤ 1 then [⟨"WARN", fullMessage, ""⟩] else [])
    else if level = 2 then (if l.level ≤ 2 then [⟨"ERROR", fullMessage, ""⟩] else [])
    else if level = 3 then (if l.level ≤ 3 then [⟨"CRITICAL", fullMessage, ""⟩] else [])
    else [⟨"ERROR", "Unknown log level: " ++ toString level, ""⟩]
  (l, lines)

/-- The tag switch of `logger.go` `Notify` (lines 130–141), applied to the
already-formatted message. -/
def notifySwitch (l : Logger) (messageType formattedMessage : String) :
    Logger × List LogLine :=
  if messageType = "Info" then Log l 0 formattedMessage []
  else if messageType = "Warn" then Log l 1 formattedMessage []
  else if messageType = "Error" then Log l 2 formattedMessage []
  else if messageType = "Critical" then Log l 3 formattedMessage []
  else Log l 2 ("Unknown message type: " ++ messageType) []

/-- `logger.go` lines 119–142, package-level `Notify(messageType, message,
context...)`, acting on the global logger `l`: formats the message with
`fmt.Sprintf` only when the context list is non-empty, then dispatches on
the tag. -/
def Notify (l : Logger) (messageType message : String)
    (context : List String) : Logger × List LogLine :=
  let formattedMessage :=
    if 0 < context.length then sprintf message context else message
  notifySwitch l messageType formattedMessage

/-- `logger.go` lines 145–160, `InitFromEnv`: `env` is
`os.LookupEnv("LOG_LEVEL")` (`none` when unset), `t` the prior
threshold; the result is the threshold afterwards (`SetLevel` stores the
mapped value). -/
def InitFromEnv (env : Option String) (t : Int) : Int :=
  match env with
  | none => t
  | some s =>
      if s = "INFO" then 0
      else if s = "WARN" then 1
      else if s = "ERROR" then 2
      else if s = "CRITICAL" then 3
      else 2

/-- The serialized record `{"level": <int>}` of `MarshalJSON` /
`UnmarshalJSON` (`logger.go` lines 162–187). -/
structure LoggerJSON where
  level : Int
  deriving DecidableEq, Repr

/-- `logger.go` lines 162–170, `MarshalJSON`: persists only the level. -/
def marshalJSON (l : Logger) : LoggerJSON :=
  ⟨l.level⟩

/-- `logger.go` lines 172–187, `UnmarshalJSON` on receiver `l`: stores the
decoded level and rebuilds all four writers as `log.New(os.Stdout, ...)`
defaults, discarding whatever sink `l` had. -/
def unmarshalJSON (_l : Logger) (data : LoggerJSON) : Logger :=
  ⟨.stdout, .stdout, .stdout, .stdout, data.level⟩

end NM

namespace P1

/-- `unnamed/part_001` (first document) lines 102–106 and
`unnamed/part_000` lines 80–84, `(l *Logger) Info(message)`: writes via
`l.infoLogger.Println` iff `l.level <= LevelInfo`. -/
def Info (l : Logger) (message : String) : Logger × List LogLine :=
  (l, if l.level ≤ 0 then [⟨"INFO", message, ""⟩] else [])

/-- `unnamed/part_001` (first document) lines 109–113, `Warn`. -/
def Warn (l : Logger) (message : String) : Logger × List LogLine :=
  (l, if l.level ≤ 1 then [⟨"WARN", message, ""⟩] else [])

/-- `unnamed/part_001` (first document) lines 116–120, `Error`. -/
def Error (l : Logger) (message : String) : Logger × List LogLine :=
  (l, if l.level ≤ 2 then [⟨"ERROR", message, ""⟩] else [])

/-- `unnamed/part_001` (first document) lines 123–127, `Critical`. -/
def Critical (l : Logger) (message : String) : Logger × List LogLine :=
  (l, if l.level ≤ 3 then [⟨"CRITICAL", message, ""⟩] else [])

/-- `unnamed/part_001` (first document) lines 84–99 and
`unnamed/part_000` lines 64–77, `LogWithLevel(level, message)`: switch on
the numeric level dispatching to the severity methods; the default branch
calls `l.Error(fmt.Sprintf("Unknown log level: %d", level))`, which is
itself gated by `l.level <= LevelError`. -/
def LogWithLevel (l : Logger) (level : Int) (message : String) :
    Logger × List LogLine :=
  if level = 0 then Info l message
  else if level = 1 then Warn l message
  else if level = 2 then Error l message
  else if level = 3 then Critical l message
  else Error l ("Unknown log level: " ++ toString level)

end P1

namespace P2

/-- `unnamed/part_001` (second document) `logMessage` (its lines 63–76):
formats the message with `fmt.Sprintf` only when `args` is non-empty,
then composes `<timestamp> [<LEVEL>] <message> - <context>`; the
timestamp is environmental and not modelled. -/
def logMessage (tag msg ctx : String) (args : List String) : LogLine :=
  ⟨tag, if 0 < args.length then sprintf msg args else msg, ctx⟩

/-- `unnamed/part_001` (second document) `Info(message, context, args...)`
(its lines 79–83): emits iff `l.level <= LevelInfo`. -/
def Info (l : Logger) (msg ctx : String) (args : List String) :
    Logger × List LogLine :=
  (l, if l.level ≤ 0 then [logMessage "INFO" msg ctx args] else [])

/-- `unnamed/part_001` (second document) `Warn` (its lines 86–90). -/
def Warn (l : Logger) (msg ctx : String) (args : List String) :
    Logger × List LogLine :=
  (l, if l.level ≤ 1 then [logMessage "WARN" msg ctx args] else [])

/-- `unnamed/part_001` (second document) `Error` (its lines 93–97). -/
def Error (l : Logger) (msg ctx : String) (args : List String) :
    Logger × List LogLine :=
  (l, if l.level ≤ 2 then [logMessage "ERROR" msg ctx args] else [])

/-- `unnamed/part_001` (second document) `Critical` (its lines 101–106):
writes iff `l.level <= LevelCritical`, and unconditionally returns
`fmt.Errorf(message, args...)` — a non-nil error whose message is the
printf-formatted message. -/
def Critical (l : Logger) (msg ctx : String) (args : List String) :
    Logger × List LogLine × Option String :=
  (l, (if l.level ≤ 3 then [logMessage "CRITICAL" msg ctx args] else []),
    some (sprintf msg args))

/-- The tag switch of `unnamed/part_001` (second document)
`Logger.Notify` (its lines 118–130), applied to the already-formatted
message.  Each branch passes the fixed context label `"Notify"` and no
printf arguments; the default branch logs the fixed text
`"Unknown message type:"` (the tag is NOT appended), and `Critical`'s
returned error is discarded. -/
def notifySwitch (l : Logger) (messageType fm : String) :
    Logger × List LogLine :=
  if messageType = "Info" then Info l fm "Notify" []
  else if messageType = "Warn" then Warn l fm "Notify" []
  else if messageType = "Error" then Error l fm "Notify" []
  else if messageType = "Critical" then
    ((Critical l fm "Notify" []).1, (Critical l fm "Notify" []).2.1)
  else Error l "Unknown message type:" "Notify" []

/-- `unnamed/part_001` (second document) `Logger.Notify` (its lines
110–132): formats the message with `fmt.Sprintf` only when the context
list is non-empty, then dispatches on the tag. -/
def Notify (l : Logger) (messageType message : String)
    (context : List String) : Logger × List LogLine :=
  let fm := if 0 < context.length then sprintf message context else message
  notifySwitch l messageType fm

end P2

namespace P3

/-- `unnamed/part_002` lines 125–130, `Critical(message)`: writes
`<timestamp> [CRITICAL] <message> - CRITICAL` iff
`l.level <= LevelCritical`, and unconditionally returns
`fmt.Errorf(message)` — formatting the message with an empty argument
list. -/
def Critical (l : Logger) (msg : String) :
    Logger × List LogLine × Option String :=
  (l, (if l.level ≤ 3 then [⟨"CRITICAL", msg, "CRITICAL"⟩] else []),
    some (sprintf msg []))

end P3

/-- One emit operation of the API surface the claims range over: the
numeric dispatcher and package `Notify` of `logger.go`, and the four
severity methods and method `Notify` of `unnamed/part_001`'s second
document. -/
inductive Op where
  | log (level : Int) (msg : String) (params : List String) : Op
  | notify (tag msg : String) (ctx : List String) : Op
  | info (msg ctx : String) (args : List String) : Op
  | warn (msg ctx : String) (args : List String) : Op
  | error (msg ctx : String) (args : List String) : Op
  | critical (msg ctx : String) (args : List String) : Op
  | notifyM (tag msg : String) (ctx : List String) : Op

/-- Run one emit operation on the logger, returning the logger afterwards
and the lines written. -/
def stepOp (l : Logger) : Op → Logger × List LogLine
  | .log lv m ps => NM.Log l lv m ps
  | .notify t m c => NM.Notify l t m c
  | .info m c a => P2.Info l m c a
  | .warn m c a => P2.Warn l m c a
  | .error m c a => P2.Error l m c a
  | .critical m c a => ((P2.Critical l m c a).1, (P2.Critical l m c a).2.1)
  | .notifyM t m c => P2.Notify l t m c

/-- Run a sequence of emit operations, threading the logger state and
concatenating the written lines. -/
def runOps (l : Logger) : List Op → Logger × List LogLine
  | [] => (l, [])
  | op :: ops =>
      let r := stepOp l op
      let r2 := runOps r.1 ops
      (r2.1, r.2 ++ r2.2)

/-- A singleton-or-empty conditional list is non-empty exactly when the
condition holds. -/
lemma ite_singleton_eq_nil_iff {c : Prop} [Decidable c] (x : LogLine) :
    ((if c then [x] else []) = []) ↔ ¬ c := by
  split <;> simp_all

/-- The numeric dispatcher of `logger.go` leaves the logger unchanged. -/
lemma log_fst (l : Logger) (lv : Int) (m : String) (ps : List String) :
    (NM.Log l lv m ps).1 = l := rfl

/-- The tag switch of `logger.go` `Notify` leaves the logger unchanged. -/
lemma nm_notifySwitch_fst (l : Logger) (t fm : String) :
    (NM.notifySwitch l t fm).1 = l := by
  simp only [NM.notifySwitch]
  split_ifs <;> rfl

/-- Package-level `Notify` of `logger.go` leaves the logger unchanged. -/
lemma nm_notify_fst (l : Logger) (t m : String) (c : List String) :
    (NM.Notify l t m c).1 = l :=
  nm_notifySwitch_fst l t (if 0 < c.length then sprintf m c else m)

/-- The tag switch of `Logger.Notify` (part_001, second document) leaves
the logger unchanged. -/
lemma p2_notifySwitch_fst (l : Logger) (t fm : String) :
    (P2.notifySwitch l t fm).1 = l := by
  simp only [P2.notifySwitch]
  split_ifs <;> rfl

/-- `Logger.Notify` (part_001, second document) leaves the logger
unchanged. -/
lemma p2_notify_fst (l : Logger) (t m : String) (c : List String) :
    (P2.Notify l t m c).1 = l :=
  p2_notifySwitch_fst l t (if 0 < c.length then sprintf m c else m)

/-- Every single emit operation leaves the logger state unchanged. -/
lemma stepOp_fst (l : Logger) (op : Op) : (stepOp l op).1 = l := by
  cases op with
  | log lv m ps => rfl
  | notify t m c => exact nm_notify_fst l t m c
  | info m c a => rfl
  | warn m c a => rfl
  | error m c a => rfl
  | critical m c a => rfl
  | notifyM t m c => exact p2_notify_fst l t m c

/-- A sequence of emit operations leaves the logger state unchanged. -/
lemma runOps_fst (ops : List Op) : ∀ l : Logger, (runOps l ops).1 = l := by
  induction ops with
  | nil => intro l; rfl
  | cons op ops ih =>
      intro l
      show (runOps (stepOp l op).1 ops).1 = l
      rw [stepOp_fst]
      exact ih l

/-- Claim C1: for every logger with threshold T, every severity S in
{Info=0, Warn=1, Error=2, Critical=3} and every message, the emit
operation at severity S — the numeric dispatcher `Log` of `logger.go` or
the `Info`/`Warn`/`Error`/`Critical` methods of part_001's second
document — writes a line to the sink iff S ≥ T, and writes nothing when
S < T. -/
theorem c1_emit_iff_at_or_above_threshold (l : Logger) (S : Int)
    (m c : String) (ps args : List String)
    (hS : S = 0 ∨ S = 1 ∨ S = 2 ∨ S = 3) :
    ((NM.Log l S m ps).2 ≠ [] ↔ S ≥ l.level)
    ∧ ((P2.Info l m c args).2 ≠ [] ↔ (0 : Int) ≥ l.level)
    ∧ ((P2.Warn l m c args).2 ≠ [] ↔ (1 : Int) ≥ l.level)
    ∧ ((P2.Error l m c args).2 ≠ [] ↔ (2 : Int) ≥ l.level)
    ∧ ((P2.Critical l m c args).2.1 ≠ [] ↔ (3 : Int) ≥ l.level) := by
  refine ⟨?_, ?_, ?_, ?_, ?_⟩
  · rcases hS with rfl | rfl | rfl | rfl
    · by_cases h : l.level ≤ 0 <;> simp [NM.Log, ge_iff_le, h]
    · by_cases h : l.level ≤ 1 <;> simp [NM.Log, ge_iff_le, h]
    · by_cases h : l.level ≤ 2 <;> simp [NM.Log, ge_iff_le, h]
    · by_cases h : l.level ≤ 3 <;> simp [NM.Log, ge_iff_le, h]
  · by_cases h : l.level ≤ 0 <;> simp [P2.Info, ge_iff_le, h]
  · by_cases h : l.level ≤ 1 <;> simp [P2.Warn, ge_iff_le, h]
  · by_cases h : l.level ≤ 2 <;> simp [P2.Error, ge_iff_le, h]
  · by_cases h : l.level ≤ 3 <;> simp [P2.Critical, ge_iff_le, h]

/-- Witness for C1 at a concrete logger (threshold Warn) and severity
Error. -/
theorem c1_emit_iff_at_or_above_threshold_witness :
    ((NM.Log ⟨Sink.stdout, Sink.stdout, Sink.stdout, Sink.stdout, 1⟩ 2 "m" []).2 ≠ []
        ↔ (2 : Int) ≥ 1)
    ∧ ((P2.Info ⟨Sink.stdout, Sink.stdout, Sink.stdout, Sink.stdout, 1⟩ "m" "c" []).2 ≠ []
        ↔ (0 : Int) ≥ 1)
    ∧ ((P2.Warn ⟨Sink.stdout, Sink.stdout, Sink.stdout, Sink.stdout, 1⟩ "m" "c" []).2 ≠ []
        ↔ (1 : Int) ≥ 1)
    ∧ ((P2.Error ⟨Sink.stdout, Sink.stdout, Sink.stdout, Sink.stdout, 1⟩ "m" "c" []).2 ≠ []
        ↔ (2 : Int) ≥ 1)
    ∧ ((P2.Critical ⟨Sink.stdout, Sink.stdout, Sink.stdout, Sink.stdout, 1⟩ "m" "c" []).2.1 ≠ []
        ↔ (3 : Int) ≥ 1) :=
  c1_emit_iff_at_or_above_threshold
    ⟨Sink.stdout, Sink.stdout, Sink.stdout, Sink.stdout, 1⟩ 2 "m" "c" [] []
    (by decide)

/-- Claim C2: for every threshold (including above Critical), `Critical`
returns a non-nil error whose message is the printf-formatted message,
unconditionally — even when the threshold suppresses the write.  Covers
`Critical` of part_001's second document and of part_002. -/
theorem c2_critical_always_returns_error (l : Logger) (m c : String)
    (args : List String) :
    (P2.Critical l m c args).2.2 = some (sprintf m args)
    ∧ (3 < l.level → (P2.Critical l m c args).2.1 = [])
    ∧ (P3.Critical l m).2.2 = some (sprintf m []) := by
  refine ⟨rfl, ?_, rfl⟩
  intro h
  simp [P2.Critical, show ¬ (l.level ≤ 3) from by omega]

/-- Witness for C2 at threshold 4 (above Critical): the write is
suppressed yet the error value is still returned. -/
theorem c2_critical_always_returns_error_witness :
    (P2.Critical ⟨Sink.stdout, Sink.stdout, Sink.stdout, Sink.stdout, 4⟩ "disk full" "c" []).2.2
        = some (sprintf "disk full" [])
    ∧ (P2.Critical ⟨Sink.stdout, Sink.stdout, Sink.stdout, Sink.stdout, 4⟩ "disk full" "c" []).2.1
        = [] :=
  ⟨(c2_critical_always_returns_error
      ⟨Sink.stdout, Sink.stdout, Sink.stdout, Sink.stdout, 4⟩ "disk full" "c" []).1,
   (c2_critical_always_returns_error
      ⟨Sink.stdout, Sink.stdout, Sink.stdout, Sink.stdout, 4⟩ "disk full" "c" []).2.1
      (by decide)⟩

/-- Claim C4: `InitFromEnv` is a no-op when `LOG_LEVEL` is unset, maps
the four exact literals to the corresponding levels, and maps any other
present value to Error (2). -/
theorem c4_init_from_env (t : Int) (s : String)
    (h : s ≠ "INFO" ∧ s ≠ "WARN" ∧ s ≠ "ERROR" ∧ s ≠ "CRITICAL") :
    NM.InitFromEnv none t = t
    ∧ NM.InitFromEnv (some "INFO") t = 0
    ∧ NM.InitFromEnv (some "WARN") t = 1
    ∧ NM.InitFromEnv (some "ERROR") t = 2
    ∧ NM.InitFromEnv (some "CRITICAL") t = 3
    ∧ NM.InitFromEnv (some s) t = 2 := by
  refine ⟨rfl, rfl, rfl, rfl, rfl, ?_⟩
  simp [NM.InitFromEnv, h.1, h.2.1, h.2.2.1, h.2.2.2]

/-- Witness for C4 with the unmapped value `"DEBUG"` and prior
threshold 3. -/
theorem c4_init_from_env_witness :
    NM.InitFromEnv none 3 = 3
    ∧ NM.InitFromEnv (some "INFO") 3 = 0
    ∧ NM.InitFromEnv (some "WARN") 3 = 1
    ∧ NM.InitFromEnv (some "ERROR") 3 = 2
    ∧ NM.InitFromEnv (some "CRITICAL") 3 = 3
    ∧ NM.InitFromEnv (some "DEBUG") 3 = 2 :=
  c4_init_from_env 3 "DEBUG" (by decide)

/-- Claim C5: deserializing the serialization of any logger — into any
receiver — yields a logger whose threshold equals the original's. -/
theorem c5_serialize_roundtrip_level (l l2 : Logger) :
    (NM.unmarshalJSON l2 (NM.marshalJSON l)).level = l.level := rfl

/-- Claim C8: after `UnmarshalJSON` of any record into any logger
(including one backed by a file sink), all four severity writers target
standard output; the previous file sink is not preserved. -/
theorem c8_unmarshal_resets_sinks_to_stdout (l : Logger) (data : NM.LoggerJSON) :
    (NM.unmarshalJSON l data).infoSink = Sink.stdout
    ∧ (NM.unmarshalJSON l data).warnSink = Sink.stdout
    ∧ (NM.unmarshalJSON l data).errorSink = Sink.stdout
    ∧ (NM.unmarshalJSON l data).criticalSink = Sink.stdout :=
  ⟨rfl, rfl, rfl, rfl⟩

/-- Claim C10: every sequence of emit operations (`Log`, `Notify`,
`Info`, `Warn`, `Error`, `Critical`, method `Notify`) with any arguments
leaves the logger's threshold unchanged. -/
theorem c10_emits_preserve_threshold (l : Logger) (ops : List Op) :
    (runOps l ops).1.level = l.level := by
  rw [runOps_fst]

/-- Counterexample to claim C3 as stated: at threshold Critical (3),
`Notify("Bogus", "x")` — `"Bogus"` being outside the four known tags —
emits no line at all, because the fallback logs at Error severity and
the Error write is gated by `l.level <= LevelError`. -/
theorem c3_counterexample :
    ("Bogus" ≠ "Info" ∧ "Bogus" ≠ "Warn" ∧ "Bogus" ≠ "Error"
        ∧ "Bogus" ≠ "Critical")
    ∧ (NM.Notify ⟨Sink.stdout, Sink.stdout, Sink.stdout, Sink.stdout, 3⟩
        "Bogus" "x" []).2 = [] := by
  exact ⟨by decide, by decide⟩

/-- Claim C3 (amended): for every tag outside the four literals,
package-level `Notify` emits exactly one Error-level line naming the
tag when the threshold is at most Error, and emits nothing when the
threshold is above Error; the method `Logger.Notify` of part_001's
second document emits (when the threshold is at most Error) one
Error-level line with the fixed text `Unknown message type:` that does
not include the tag. -/
theorem c3_unknown_tag_error_line (l : Logger) (tag m : String)
    (ctx : List String)
    (h : tag ≠ "Info" ∧ tag ≠ "Warn" ∧ tag ≠ "Error" ∧ tag ≠ "Critical") :
    (l.level ≤ 2 →
      (NM.Notify l tag m ctx).2 = [⟨"ERROR", "Unknown message type: " ++ tag, ""⟩])
    ∧ (2 < l.level → (NM.Notify l tag m ctx).2 = [])
    ∧ (l.level ≤ 2 →
      (P2.Notify l tag m ctx).2 = [⟨"ERROR", "Unknown message type:", "Notify"⟩])
    ∧ (2 < l.level → (P2.Notify l tag m ctx).2 = []) := by
  refine ⟨?_, ?_, ?_, ?_⟩
  · intro hl
    simp [NM.Notify, NM.notifySwitch, NM.Log, h.1, h.2.1, h.2.2.1, h.2.2.2, hl]
  · intro hl
    simp [NM.Notify, NM.notifySwitch, NM.Log, h.1, h.2.1, h.2.2.1, h.2.2.2,
      show ¬ (l.level ≤ 2) from by omega]
  · intro hl
    simp [P2.Notify, P2.notifySwitch, P2.Error, P2.logMessage,
      h.1, h.2.1, h.2.2.1, h.2.2.2, hl]
  · intro hl
    simp [P2.Notify, P2.notifySwitch, P2.Error, P2.logMessage,
      h.1, h.2.1, h.2.2.1, h.2.2.2, show ¬ (l.level ≤ 2) from by omega]

/-- Witness for the amended C3: tag `"Bogus"` at threshold Info (0). -/
theorem c3_unknown_tag_error_line_witness :
    (NM.Notify ⟨Sink.stdout, Sink.stdout, Sink.stdout, Sink.stdout, 0⟩
        "Bogus" "x" []).2 = [⟨"ERROR", "Unknown message type: " ++ "Bogus", ""⟩]
    ∧ (P2.Notify ⟨Sink.stdout, Sink.stdout, Sink.stdout, Sink.stdout, 0⟩
        "Bogus" "x" []).2 = [⟨"ERROR", "Unknown message type:", "Notify"⟩] :=
  ⟨(c3_unknown_tag_error_line
      ⟨Sink.stdout, Sink.stdout, Sink.stdout, Sink.stdout, 0⟩ "Bogus" "x" []
      (by decide)).1 (by decide),
   (c3_unknown_tag_error_line
      ⟨Sink.stdout, Sink.stdout, Sink.stdout, Sink.stdout, 0⟩ "Bogus" "x" []
      (by decide)).2.2.1 (by decide)⟩

/-- Claim C6: the constructor at a destination whose open fails.  The
source (`logger.go` `newLoggerInstance`) calls `log.Fatalf`, terminating
the host process, instead of surfacing an IOError to its caller: the
outcome is the `fatal` result, not an `ok` logger or a returned error. -/
theorem c6_open_failure_terminates_process :
    NM.newLoggerInstance (fun _ => false) 0 ["log.txt"]
      = NM.InitResult.fatal "Failed to open log file" := rfl

/-- Counterexample to claim C7 as stated: at threshold Critical (3),
`LogWithLevel 42 "x"` — 42 being outside {0,1,2,3} — emits no line,
because the default branch goes through `Error`, which is gated by
`l.level <= LevelError`. -/
theorem c7_counterexample :
    ((42 : Int) ≠ 0 ∧ (42 : Int) ≠ 1 ∧ (42 : Int) ≠ 2 ∧ (42 : Int) ≠ 3)
    ∧ (P1.LogWithLevel ⟨Sink.stdout, Sink.stdout, Sink.stdout, Sink.stdout, 3⟩
        42 "x").2 = [] := by
  exact ⟨by decide, by decide⟩

/-- Claim C7 (amended): for every numeric level outside {0,1,2,3}, the
`Log` dispatcher of `logger.go` emits exactly one Error-severity line
naming the bad value regardless of the threshold, while `LogWithLevel`
of part_001's first document emits that line iff the threshold is at
most Error; in both, the logger state (threshold and sinks) is
unchanged. -/
theorem c7_unknown_level_error_line (l : Logger) (lv : Int) (m : String)
    (ps : List String)
    (h : lv ≠ 0 ∧ lv ≠ 1 ∧ lv ≠ 2 ∧ lv ≠ 3) :
    (NM.Log l lv m ps).2 = [⟨"ERROR", "Unknown log level: " ++ toString lv, ""⟩]
    ∧ (NM.Log l lv m ps).1 = l
    ∧ (P1.LogWithLevel l lv m).2
        = (if l.level ≤ 2
            then [⟨"ERROR", "Unknown log level: " ++ toString lv, ""⟩] else [])
    ∧ (P1.LogWithLevel l lv m).1 = l := by
  refine ⟨?_, rfl, ?_, ?_⟩
  · simp [NM.Log, h.1, h.2.1, h.2.2.1, h.2.2.2]
  · simp [P1.LogWithLevel, P1.Error, h.1, h.2.1, h.2.2.1, h.2.2.2]
  · simp [P1.LogWithLevel, P1.Error, h.1, h.2.1, h.2.2.1, h.2.2.2]

/-- Witness for the amended C7: level 42 at threshold Warn (1). -/
theorem c7_unknown_level_error_line_witness :
    (NM.Log ⟨Sink.stdout, Sink.stdout, Sink.stdout, Sink.stdout, 1⟩ 42 "x" []).2
      = [⟨"ERROR", "Unknown log level: " ++ toString (42 : Int), ""⟩]
    ∧ (NM.Log ⟨Sink.stdout, Sink.stdout, Sink.stdout, Sink.stdout, 1⟩ 42 "x" []).1
      = ⟨Sink.stdout, Sink.stdout, Sink.stdout, Sink.stdout, 1⟩
    ∧ (P1.LogWithLevel ⟨Sink.stdout, Sink.stdout, Sink.stdout, Sink.stdout, 1⟩ 42 "x").2
      = (if (1 : Int) ≤ 2
          then [⟨"ERROR", "Unknown log level: " ++ toString (42 : Int), ""⟩] else [])
    ∧ (P1.LogWithLevel ⟨Sink.stdout, Sink.stdout, Sink.stdout, Sink.stdout, 1⟩ 42 "x").1
      = ⟨Sink.stdout, Sink.stdout, Sink.stdout, Sink.stdout, 1⟩ :=
  c7_unknown_level_error_line
    ⟨Sink.stdout, Sink.stdout, Sink.stdout, Sink.stdout, 1⟩ 42 "x" [] (by decide)

/-- Claim C9: `Notify` with an empty context-argument list passes the
message through literally — the formatting step is skipped, so a message
containing format verbs (for which `sprintf` with no arguments is not
the identity) is emitted verbatim.  Holds for package-level `Notify`
(`logger.go`) and the method `Logger.Notify` (part_001, second
document). -/
theorem c9_empty_context_literal_message (l : Logger) (tag m : String) :
    NM.Notify l tag m [] = NM.notifySwitch l tag m
    ∧ P2.Notify l tag m [] = P2.notifySwitch l tag m
    ∧ (l.level ≤ 0 → (NM.Notify l "Info" m []).2 = [⟨"INFO", m, ""⟩])
    ∧ (l.level ≤ 0 → (P2.Notify l "Info" m []).2 = [⟨"INFO", m, "Notify"⟩])
    ∧ sprintf "%d" [] ≠ "%d" := by
  refine ⟨rfl, rfl, ?_, ?_, by decide⟩
  · intro hl
    simp [NM.Notify, NM.notifySwitch, NM.Log, hl]
  · intro hl
    simp [P2.Notify, P2.notifySwitch, P2.Info, P2.logMessage, hl]

/-- Witness for C9 at threshold Info with the verb-containing message
`"%d"`, emitted verbatim. -/
theorem c9_empty_context_literal_message_witness :
    (NM.Notify ⟨Sink.stdout, Sink.stdout, Sink.stdout, Sink.stdout, 0⟩
        "Info" "%d" []).2 = [⟨"INFO", "%d", ""⟩]
    ∧ (P2.Notify ⟨Sink.stdout, Sink.stdout, Sink.stdout, Sink.stdout, 0⟩
        "Info" "%d" []).2 = [⟨"INFO", "%d", "Notify"⟩] :=
  ⟨(c9_empty_context_literal_message
      ⟨Sink.stdout, Sink.stdout, Sink.stdout, Sink.stdout, 0⟩ "Info" "%d").2.2.1
      (by decide),
   (c9_empty_context_literal_message
      ⟨Sink.stdout, Sink.stdout, Sink.stdout, Sink.stdout, 0⟩ "Info" "%d").2.2.2.1
      (by decide)⟩
